import Mathlib

/-!
Verification of the massive-data-collection pipeline
(`src/services/massive_data_collector.py`).

The Python source is shallowly embedded: dictionaries become structures or
association lists, floats arising from divisions become rationals, the
mutable `collection_stats` attribute of the collector object becomes
explicit state passing, exceptions become `Except`, and the external
collaborators (search providers, the supadata social manager, the content
extractor, the persistence layer) become function parameters.
-/

set_option maxRecDepth 4000

namespace MassiveCollector

/-! ### Character-level text helpers

`str.split()` in Python splits on whitespace runs; `re.findall` scans left
to right for non-overlapping matches.  The two regexes used by
`_calculate_content_quality` are `\d+(?:\.\d+)?%?` (numeric tokens) and
`R\$\s*[\d,\.]+` (currency tokens); both always consume at least one
character when they match, so the scanner below advances by the match
length, or by one character when no match starts at the current position.
-/

/-- Whitespace as matched by Python's `\s` and `str.split()` (ASCII part). -/
def isPySpace (c : Char) : Bool :=
  c == ' ' || c == '\t' || c == '\n' || c == '\r' || c == '\x0b' || c == '\x0c'

/-- Fuelled word scanner; every step consumes at least one character, so
fuel equal to the list length never runs out. -/
def wordCountAux : Nat → List Char → Nat
  | 0, _ => 0
  | _, [] => 0
  | fuel + 1, c :: rest =>
    if isPySpace c then wordCountAux fuel rest
    else 1 + wordCountAux fuel (rest.dropWhile (fun ch => !isPySpace ch))

/-- Number of whitespace-separated words, as computed by `content.split()`. -/
def wordCount (l : List Char) : Nat := wordCountAux l.length l

/-- Length of the run of decimal digits at the head of the list. -/
def digitRun (l : List Char) : Nat := (l.takeWhile Char.isDigit).length

/-- Length of the match of `\d+(?:\.\d+)?%?` anchored at the head of the
list, `0` when there is no match (i.e. no leading digit). -/
def numMatchLen (l : List Char) : Nat :=
  let d := digitRun l
  if d = 0 then 0
  else
    let rest := l.drop d
    let frac :=
      match rest with
      | '.' :: r2 => let k := digitRun r2; if k = 0 then 0 else k + 1
      | _ => 0
    let rest2 := rest.drop frac
    let pct :=
      match rest2 with
      | '%' :: _ => 1
      | _ => 0
    d + frac + pct

/-- Characters allowed in the body of the currency regex class `[\d,\.]`. -/
def isMoneyChar (c : Char) : Bool := c.isDigit || c == ',' || c == '.'

/-- Length of the match of `R\$\s*[\d,\.]+` anchored at the head of the
list, `0` when there is no match. -/
def moneyMatchLen (l : List Char) : Nat :=
  match l with
  | 'R' :: '$' :: rest =>
    let s := (rest.takeWhile isPySpace).length
    let rest2 := rest.drop s
    let d := (rest2.takeWhile isMoneyChar).length
    if d = 0 then 0 else 2 + s + d
  | _ => 0

/-- Fuelled match scanner; every step consumes at least one character, so
fuel equal to the list length never runs out. -/
def countMatchesAux (matchLen : List Char → Nat) : Nat → List Char → Nat
  | 0, _ => 0
  | _, [] => 0
  | fuel + 1, c :: rest =>
    let n := matchLen (c :: rest)
    if n = 0 then countMatchesAux matchLen fuel rest
    else 1 + countMatchesAux matchLen fuel (rest.drop (n - 1))

/-- Count of non-overlapping matches found by a left-to-right scan, as in
`re.findall`: at each position, take the match anchored there if any
(continuing after it), otherwise advance one character. -/
def countMatches (matchLen : List Char → Nat) (l : List Char) : Nat :=
  countMatchesAux matchLen l.length l

/-! ### Quality scoring (`_calculate_content_quality`) -/

/-- `_calculate_content_quality(content, url_data)`: size points, density
points, data-evidence points from the two regex counts, and a fixed trust
bonus keyed on `url_data['source']`; the sum is cut off at 100.  All
contributions are integral, so the Python float is modelled as `Nat`. -/
def calculateContentQuality (content : String) (source : String) : Nat :=
  let l := content.data
  let sizeScore : Nat :=
    if 2000 ≤ content.length then 25 else if 1000 ≤ content.length then 15 else 5
  let densityScore : Nat :=
    if 300 ≤ wordCount l then 25 else if 150 ≤ wordCount l then 15 else 5
  let numbers := countMatches numMatchLen l
  let money := countMatches moneyMatchLen l
  let dataScore : Nat := min (numbers * 2) 20 + min (money * 3) 15
  let sourceScore : Nat :=
    if source = "exa" then 10
    else if source = "websailor" then 8
    else if source = "google" ∨ source = "serper" then 6
    else 0
  min (sizeScore + densityScore + dataScore + sourceScore) 100

/-- Modelled from the spec (section 4.4): the quality-score formula as the
specification words it — size component plus density component plus
data-evidence component plus source-trust component, "clamped to
[0,100]".  Kept separate from `calculateContentQuality` (the code's
version) so the two can be compared. -/
def qualityScoreSpec (content : String) (source : String) : Nat :=
  let l := content.data
  let sizeComponent : Nat :=
    if 2000 ≤ content.length then 25 else if 1000 ≤ content.length then 15 else 5
  let densityComponent : Nat :=
    if 300 ≤ wordCount l then 25 else if 150 ≤ wordCount l then 15 else 5
  let dataEvidence : Nat :=
    min (2 * countMatches numMatchLen l) 20 + min (3 * countMatches moneyMatchLen l) 15
  let sourceTrust : Nat :=
    if source = "exa" then 10
    else if source = "websailor" then 8
    else if source = "google" ∨ source = "serper" then 6
    else 0
  min 100 (max 0 (sizeComponent + densityComponent + dataEvidence + sourceTrust))

example : wordCount "ab cd  ef".data = 3 := by decide
example : countMatches numMatchLen "12.34.56 e 1% x".data = 3 := by decide
example : countMatches moneyMatchLen "R$ 1.200,00 e R$5".data = 2 := by decide
example : calculateContentQuality "abc" "exa" = 20 := by decide

/-! ### Data model -/

/-- One web search hit, as the provider result dictionaries are shaped
(`title`, `url`, `snippet`, `source`). -/
structure SearchHit where
  title : String
  url : String
  snippet : String
  source : String
deriving DecidableEq

/-- One social post/video, as the supadata result dictionaries are shaped. -/
structure SocialItem where
  title : String
  url : String
  text : String
  platform : String
  simulated : Bool
deriving DecidableEq

/-- A platform result dictionary (`success`, `platform`, `results`,
`total_found`, `query`). -/
structure SocialResult where
  success : Bool
  platform : String
  results : List SocialItem
  total_found : Nat
  query : String
deriving DecidableEq

/-- The external `mcp_supadata_manager` collaborator: one fallible search
function per supported platform (query, max results). -/
structure SupadataManager where
  search_youtube : String → Nat → Except String SocialResult
  search_twitter : String → Nat → Except String SocialResult
  search_linkedin : String → Nat → Except String SocialResult
  search_instagram : String → Nat → Except String SocialResult

/-- An extraction task harvested for the URL pool
(`url`, `title`, `source`, `snippet`). -/
structure UrlData where
  url : String
  title : String
  source : String
  snippet : String
deriving DecidableEq

/-- A successfully extracted document, as built by
`_extract_single_content` (the `success`/timestamp bookkeeping fields are
dropped; a produced document always has `success = True`). -/
structure ExtractedDoc where
  url : String
  title : String
  source : String
  snippet : String
  content : String
  content_length : Nat
  word_count : Nat
  quality_score : Nat
  extraction_index : Nat
deriving DecidableEq

/-- The collector's mutable `self.collection_stats` dictionary
(`extraction_time` stays 0 throughout the source and is dropped). -/
structure CollectionStats where
  web_sources : Nat
  social_sources : Nat
  youtube_sources : Nat
  total_content_chars : Nat
  sources_by_provider : List (String × Nat)
  quality_scores : List Nat
deriving DecidableEq

/-- The stats dictionary as `__init__` creates it: everything zero/empty.
The module instantiates `massive_data_collector = MassiveDataCollector()`
once at import time, so this is the state before the *first* pipeline
invocation only. -/
def initStats : CollectionStats :=
  { web_sources := 0, social_sources := 0, youtube_sources := 0,
    total_content_chars := 0, sources_by_provider := [], quality_scores := [] }

/-- Python dict assignment `d[k] = v` on a string-keyed counter dict:
overwrite in place if the key exists, else append. -/
def dictSetNat (d : List (String × Nat)) (k : String) (v : Nat) : List (String × Nat) :=
  if d.any (fun p => p.1 == k) then d.map (fun p => if p.1 == k then (p.1, v) else p)
  else d ++ [(k, v)]

/-- Python `d.get(k, False)` on a string-keyed boolean dict. -/
def dictGetBool (d : List (String × Bool)) (k : String) : Bool :=
  match d.find? (fun p => p.1 == k) with
  | some p => p.2
  | none => false

/-- Python `d[k] = d.get(k, 0) + 1` (used by `_categorize_sources`). -/
def dictIncr (d : List (String × Nat)) (k : String) : List (String × Nat) :=
  if d.any (fun p => p.1 == k) then d.map (fun p => if p.1 == k then (p.1, p.2 + 1) else p)
  else d ++ [(k, 1)]

/-! ### Social search (`_search_social_platform_massive`) -/

/-- `_simulate_platform_data(platform, query)`: the fabricated
single-item result set used for platforms without an API. -/
def simulatePlatformData (platform : String) (query : String) : SocialResult :=
  { success := true
    platform := platform
    results := [{ title := "Conteúdo " ++ platform ++ " sobre " ++ query,
                  url := "https://" ++ platform ++ ".com/example",
                  text := "Conteúdo simulado sobre " ++ query ++ " na plataforma " ++ platform,
                  platform := platform,
                  simulated := true }]
    total_found := 1
    query := query }

/-- `_search_social_platform_massive(platform, query)`: dispatch to the
supadata manager for the four supported platforms, fall back to the
simulated data for every other platform (TikTok and Facebook in the fixed
platform list); an adapter exception is caught and yields `{}` (`none`). -/
def searchSocialPlatformMassive (mcp : SupadataManager) (platform : String)
    (query : String) : Option SocialResult :=
  let body : Except String SocialResult :=
    if platform = "youtube" then mcp.search_youtube query 25
    else if platform = "twitter" then mcp.search_twitter query 25
    else if platform = "linkedin" then mcp.search_linkedin query 20
    else if platform = "instagram" then mcp.search_instagram query 20
    else Except.ok (simulatePlatformData platform query)
  match body with
  | Except.ok r => some r
  | Except.error _ => none

/-- How many sources a platform's settled result contributes to the
social counters in `_collect_massive_social_data`: `{}` and an empty
`results` list contribute nothing, otherwise `len(results)`. -/
def socialContribution (d : Option SocialResult) : Nat :=
  match d with
  | none => 0
  | some r => r.results.length

/-! ### Single-URL extraction (`_extract_single_content`) -/

/-- `_extract_single_content(url_data, index)` with the content-extraction
collaborator passed explicitly.  The collaborator result is `none` when
`extract_content` returned `None`/raised; Python's
`if content and len(content) > 200` keeps a document only for content
strictly longer than 200 characters (the empty string is falsy and has
length 0 anyway). -/
def extractSingleContent (extractor : String → Option String) (u : UrlData)
    (index : Nat) : Option ExtractedDoc :=
  match extractor u.url with
  | none => none
  | some content =>
    if 200 < content.length then
      some { url := u.url
             title := u.title
             source := u.source
             snippet := u.snippet
             content := content
             content_length := content.length
             word_count := wordCount content.data
             quality_score := calculateContentQuality content u.source
             extraction_index := index }
    else none

/-- `_categorize_sources`: count documents per source tag. -/
def categorizeSources (docs : List ExtractedDoc) : List (String × Nat) :=
  docs.foldl (fun d doc => dictIncr d doc.source) []

/-- The dictionary `_extract_massive_content` returns. -/
structure ExtractionResult where
  total_urls_found : Nat
  total_content_extracted : Nat
  extraction_success_rate : ℚ
  extracted_content : List ExtractedDoc
  total_chars : Nat
  avg_content_length : ℚ
  sources_by_type : List (String × Nat)
deriving DecidableEq

/-- The extraction-pool phase of `_extract_massive_content`: run the first
100 harvested tasks through `_extract_single_content`, keep the
successes, accumulate their character counts and quality scores into the
collector's stats, and derive the extraction statistics.  Note that
`total_chars`/`avg_content_length` read the accumulated
`collection_stats['total_content_chars']`, not just this run's sum. -/
def extractMassiveContent (extractor : String → Option String)
    (stats : CollectionStats) (allUrls : List UrlData) :
    CollectionStats × ExtractionResult :=
  let docs := (allUrls.take 100).enum.filterMap
    (fun p => extractSingleContent extractor p.2 p.1)
  let stats2 : CollectionStats :=
    { stats with
      total_content_chars :=
        stats.total_content_chars + (docs.map (fun d => d.content_length)).sum
      quality_scores := stats.quality_scores ++ docs.map (fun d => d.quality_score) }
  (stats2,
   { total_urls_found := allUrls.length
     total_content_extracted := docs.length
     extraction_success_rate :=
       if allUrls.isEmpty then 0
       else ((docs.length : ℚ) / (allUrls.length : ℚ)) * 100
     extracted_content := docs
     total_chars := stats2.total_content_chars
     avg_content_length :=
       if docs.isEmpty then 0
       else (stats2.total_content_chars : ℚ) / (docs.length : ℚ)
     sources_by_type := categorizeSources docs })

/-! ### Consolidation (`_consolidate_massive_json`) -/

/-- The `preparacao_para_analises` block of the giant JSON: the eight
`dados_prontos_para_*` readiness flags are literally `True`, and
`qualidade_suficiente_para_analises` comes from
`_assess_data_quality_for_analysis`.  Kept as an association list because
the Validator looks keys up with `.get(key, False)`. -/
def preparacaoParaAnalises (qualidadeOk : Bool) : List (String × Bool) :=
  [("dados_prontos_para_avatar", true),
   ("dados_prontos_para_drivers", true),
   ("dados_prontos_para_provas_visuais", true),
   ("dados_prontos_para_anti_objecao", true),
   ("dados_prontos_para_pre_pitch", true),
   ("dados_prontos_para_predicoes", true),
   ("dados_prontos_para_concorrencia", true),
   ("dados_prontos_para_posicionamento", true),
   ("qualidade_suficiente_para_analises", qualidadeOk)]

/-- `_assess_data_quality_for_analysis(extracted_content)`. -/
def assessDataQualityForAnalysis (extraction : ExtractionResult) : Bool :=
  let l := extraction.extracted_content
  if l.length < 10 then false
  else if (l.map (fun d => d.content.length)).sum < 30000 then false
  else decide ((60 : ℚ) ≤ ((l.map (fun d => (d.quality_score : ℚ))).sum) / (l.length : ℚ))

/-- The claim-relevant projection of the giant consolidated JSON: run
metadata, the collection statistics block, the readiness map and the
extracted documents.  (The raw per-provider/per-platform collections and
the automatic insights are carried along in the source but inspected by
no claim; they are omitted here.) -/
structure MassiveJson where
  session_id : String
  query_original : String
  garantia_dados_reais : Bool
  zero_simulacao : Bool
  total_fontes_web : Nat
  total_fontes_sociais : Nat
  total_fontes_youtube : Nat
  total_caracteres_extraidos : Nat
  taxa_sucesso_extracao : ℚ
  qualidade_media_conteudo : ℚ
  preparacao_para_analises : List (String × Bool)
  conteudo_extraido : List ExtractedDoc
deriving DecidableEq

/-- `_consolidate_massive_json`: pure aggregation of the accumulated
stats and the extraction result into the snapshot.  The metadata flags
`garantia_dados_reais` and `zero_simulacao` are unconditionally `True`. -/
def consolidateMassiveJson (stats : CollectionStats) (extraction : ExtractionResult)
    (query : String) (sessionId : String) : MassiveJson :=
  { session_id := sessionId
    query_original := query
    garantia_dados_reais := true
    zero_simulacao := true
    total_fontes_web := stats.web_sources
    total_fontes_sociais := stats.social_sources
    total_fontes_youtube := stats.youtube_sources
    total_caracteres_extraidos := stats.total_content_chars
    taxa_sucesso_extracao := extraction.extraction_success_rate
    qualidade_media_conteudo :=
      if stats.quality_scores.isEmpty then 0
      else ((stats.quality_scores.map (fun q => (q : ℚ))).sum) / (stats.quality_scores.length : ℚ)
    preparacao_para_analises := preparacaoParaAnalises (assessDataQualityForAnalysis extraction)
    conteudo_extraido := extraction.extracted_content }

/-! ### Validation (`_validate_massive_data`) -/

/-- The `validation` dictionary returned by `_validate_massive_data`. -/
structure Validation where
  dados_suficientes_para_analise : Bool
  qualidade_aprovada : Bool
  modulos_viabilizados : List String
  problemas_identificados : List String
  recomendacoes : List String
deriving DecidableEq

/-- The fixed catalogue `modulos_possiveis`. -/
def modulosPossiveis : List String :=
  ["avatar_ultra_detalhado",
   "drivers_mentais_customizados",
   "provas_visuais_arsenal",
   "sistema_anti_objecao",
   "pre_pitch_invisivel",
   "predicoes_futuro",
   "analise_concorrencia",
   "posicionamento_estrategico"]

/-- Python's `modulo.split("_")[0]`: the part of the name before the
first underscore (the whole name when it has no underscore). -/
def firstToken (s : String) : String :=
  String.mk (s.data.takeWhile (fun c => c != '_'))

/-- `_validate_massive_data(massive_json)`: volume threshold, quality
threshold, module feasibility via
`preparacao.get('dados_prontos_para_' + modulo.split('_')[0], False)`,
and the heuristic recommendations. -/
def validateMassiveData (j : MassiveJson) : Validation :=
  let totalContent := j.total_caracteres_extraidos
  let suficiente : Bool := decide (50000 ≤ totalContent)
  let volProblemas : List String :=
    if 50000 ≤ totalContent then []
    else ["Volume insuficiente: " ++ toString totalContent ++ " < 50000 caracteres"]
  let avgQuality := j.qualidade_media_conteudo
  let aprovada : Bool := decide ((60 : ℚ) ≤ avgQuality)
  let qualProblemas : List String :=
    if (60 : ℚ) ≤ avgQuality then []
    else ["Qualidade baixa: " ++ toString avgQuality ++ " < 60"]
  let modulos := modulosPossiveis.filter
    (fun m => dictGetBool j.preparacao_para_analises ("dados_prontos_para_" ++ firstToken m))
  let recs :=
    (if suficiente then [] else ["Execute nova coleta com mais APIs configuradas"]) ++
    (if aprovada then [] else ["Configure APIs premium para melhor qualidade"]) ++
    (if modulos.length < 6 then ["Dados insuficientes para alguns módulos - configure mais fontes"] else [])
  { dados_suficientes_para_analise := suficiente
    qualidade_aprovada := aprovada
    modulos_viabilizados := modulos
    problemas_identificados := volProblemas ++ qualProblemas
    recomendacoes := recs }

/-! ### The full pipeline (`collect_massive_data`)

The external collaborators of one invocation are bundled into an
environment.  The web search result lists model the settled outcome of
each provider future: a provider that raised or timed out settles to the
empty list, exactly as the per-provider `try/except` in
`_collect_massive_web_data` produces, and `_search_duckduckgo_massive`
returns `[]` unconditionally in the source.  `salvar` is the persistence
collaborator behind `_save_massive_json`; `extractor` is
`robust_content_extractor.extract_content` (`none` for a missing result
or a raised/timed-out call). -/

structure PipelineEnv where
  exa_available : Bool
  exa_results : List SearchHit
  google_results : List SearchHit
  serper_results : List SearchHit
  bing_results : List SearchHit
  mcp : SupadataManager
  websailor_fontes : List (String × String)
  extractor : String → Option String
  salvar : MassiveJson → String → Except String String

/-- The `web_results` dictionary of `_collect_massive_web_data` (the exa
future is only submitted when `exa_client.is_available()`). -/
structure WebResults where
  exa_results : List SearchHit
  google_results : List SearchHit
  serper_results : List SearchHit
  bing_results : List SearchHit
  duckduckgo_results : List SearchHit
  total_web_sources : Nat
deriving DecidableEq

/-- The settled web phase output for an environment. -/
def webResultsOf (env : PipelineEnv) : WebResults :=
  let exaR := if env.exa_available then env.exa_results else []
  { exa_results := exaR
    google_results := env.google_results
    serper_results := env.serper_results
    bing_results := env.bing_results
    duckduckgo_results := []
    total_web_sources :=
      exaR.length + env.google_results.length + env.serper_results.length +
        env.bing_results.length }

/-- The per-provider counter updates of `_collect_massive_web_data`:
`sources_by_provider[provider] = len(results)` for every submitted
provider, in `futures` insertion order. -/
def updateSourcesByProvider (env : PipelineEnv) (d : List (String × Nat)) :
    List (String × Nat) :=
  let d1 := if env.exa_available then dictSetNat d "exa" env.exa_results.length else d
  let d2 := dictSetNat d1 "google" env.google_results.length
  let d3 := dictSetNat d2 "serper" env.serper_results.length
  let d4 := dictSetNat d3 "bing" env.bing_results.length
  dictSetNat d4 "duckduckgo" 0

/-- `_collect_massive_web_data`: settle all provider futures, then
overwrite `collection_stats['web_sources']` with the total. -/
def collectMassiveWebData (env : PipelineEnv) (stats : CollectionStats) :
    CollectionStats × WebResults :=
  let w := webResultsOf env
  ({ stats with
     web_sources := w.total_web_sources
     sources_by_provider := updateSourcesByProvider env stats.sources_by_provider }, w)

/-- The fixed platform list of `_collect_massive_social_data`. -/
def socialPlatforms : List String :=
  ["youtube", "twitter", "linkedin", "instagram", "tiktok", "facebook"]

/-- The settled per-platform social data, in platform order. -/
def socialDataOf (mcp : SupadataManager) (query : String) :
    List (String × Option SocialResult) :=
  socialPlatforms.map (fun p => (p, searchSocialPlatformMassive mcp p query))

/-- This run's contribution to `collection_stats['youtube_sources']`. -/
def runYoutubeCount (env : PipelineEnv) (query : String) : Nat :=
  socialContribution (searchSocialPlatformMassive env.mcp "youtube" query)

/-- This run's contribution to `collection_stats['social_sources']`
(every platform except youtube). -/
def runSocialCount (env : PipelineEnv) (query : String) : Nat :=
  socialContribution (searchSocialPlatformMassive env.mcp "twitter" query) +
  socialContribution (searchSocialPlatformMassive env.mcp "linkedin" query) +
  socialContribution (searchSocialPlatformMassive env.mcp "instagram" query) +
  socialContribution (searchSocialPlatformMassive env.mcp "tiktok" query) +
  socialContribution (searchSocialPlatformMassive env.mcp "facebook" query)

/-- `_collect_massive_social_data`: settle every platform, incrementing
the youtube/social counters (`+=`, unlike the web counter). -/
def collectMassiveSocialData (env : PipelineEnv) (query : String)
    (stats : CollectionStats) :
    CollectionStats × List (String × Option SocialResult) :=
  ({ stats with
     youtube_sources := stats.youtube_sources + runYoutubeCount env query
     social_sources := stats.social_sources + runSocialCount env query },
   socialDataOf env.mcp query)

/-- A web hit as an extraction task (`source` defaulting is irrelevant
here because every modelled hit carries its tag). -/
def hitToUrlData (h : SearchHit) : UrlData :=
  { url := h.url, title := h.title, source := h.source, snippet := h.snippet }

/-- A social item as an extraction task: the platform becomes the source
tag and the text, sliced to its first 200 characters (`[:200]`), the
snippet. -/
def socialItemToUrlData (it : SocialItem) : UrlData :=
  { url := it.url, title := it.title, source := it.platform,
    snippet := String.mk (it.text.data.take 200) }

/-- The URL-harvesting prologue of `_extract_massive_content`: web result
lists in dict order (entries with a falsy `url` skipped), then social
results in platform order (same skip), then the websailor
`fontes_detalhadas` with source tag `websailor`. -/
def harvestUrls (web : WebResults) (social : List (String × Option SocialResult))
    (fontes : List (String × String)) : List UrlData :=
  let webUrls :=
    ((web.exa_results ++ web.google_results ++ web.serper_results ++
        web.bing_results ++ web.duckduckgo_results).filter
      (fun h => h.url != "")).map hitToUrlData
  let socialUrls :=
    (social.map (fun pd =>
      match pd.2 with
      | none => []
      | some r => (r.results.filter (fun it => it.url != "")).map socialItemToUrlData)).flatten
  let websailorUrls := fontes.map
    (fun f => ({ url := f.1, title := f.2, source := "websailor", snippet := "" } : UrlData))
  webUrls ++ socialUrls ++ websailorUrls

/-- The extraction tasks a run harvests. -/
def runUrls (env : PipelineEnv) (query : String) : List UrlData :=
  harvestUrls (webResultsOf env) (socialDataOf env.mcp query) env.websailor_fontes

/-- The documents a run extracts (first 100 tasks through the pool). -/
def runDocs (env : PipelineEnv) (query : String) : List ExtractedDoc :=
  ((runUrls env query).take 100).enum.filterMap
    (fun p => extractSingleContent env.extractor p.2 p.1)

/-- One entry written by `salvar_erro` on the fatal path: the step name
and the query recorded in `contexto`. -/
structure ErroLog where
  etapa : String
  contexto_query : String
deriving DecidableEq

/-- The `collection_result` dictionary of a successful run (timing
fields dropped). -/
structure CollectionResult where
  success : Bool
  session_id : String
  query : String
  massive_json_path : String
  massive_data : MassiveJson
  collection_stats : CollectionStats
  validation_results : Validation
deriving DecidableEq

/-- `collect_massive_data(query, context, session_id)` on a collector
whose `collection_stats` currently holds `stats0`: web phase, social
phase, extraction pool, consolidation, persistence, validation.  The
returned triple is the collector's stats after the call (the attribute
outlives the call on the module-level instance), the `salvar_erro`
entries written, and either the collection result or the propagated
fatal error.  When `salvar` raises, the original exception is re-raised
unchanged after `salvar_erro("coleta_massiva_erro", e,
contexto={"query": query})`. -/
def collectMassiveData (env : PipelineEnv) (stats0 : CollectionStats)
    (query : String) (sessionId : String) :
    CollectionStats × List ErroLog × Except String CollectionResult :=
  let web := collectMassiveWebData env stats0
  let social := collectMassiveSocialData env query web.1
  let allUrls := harvestUrls web.2 social.2 env.websailor_fontes
  let extraction := extractMassiveContent env.extractor social.1 allUrls
  let stats3 := extraction.1
  let massiveJson := consolidateMassiveJson stats3 extraction.2 query sessionId
  let outcome : List ErroLog × Except String CollectionResult :=
    match env.salvar massiveJson sessionId with
    | Except.error e =>
      ([{ etapa := "coleta_massiva_erro", contexto_query := query }], Except.error e)
    | Except.ok path =>
      ([], Except.ok { success := true
                       session_id := sessionId
                       query := query
                       massive_json_path := path
                       massive_data := massiveJson
                       collection_stats := stats3
                       validation_results := validateMassiveData massiveJson })
  (stats3, outcome)

/-! ## Theorems for the claims -/

/-- Claim C2: the quality score is a deterministic pure function of
(text, source tag); its value equals the spec's formula — size component
(≥2000 chars → 25; ≥1000 → 15; else 5) + density component (≥300 words →
25; ≥150 → 15; else 5) + data-evidence component (min(2·numeric-tokens,
20) + min(3·currency-tokens, 15)) + source-trust component (+10 exa,
+8 websailor, +6 google/serper, 0 otherwise), clamped to [0,100] — and
the result always lies in [0, 100] (the lower bound is inherent to the
`Nat` codomain; the raw sum is in fact never below 10). -/
theorem quality_score_matches_spec_and_is_bounded (content source : String) :
    calculateContentQuality content source = qualityScoreSpec content source ∧
    calculateContentQuality content source ≤ 100 ∧
    calculateContentQuality content source = calculateContentQuality content source := by
  refine ⟨?_, ?_, rfl⟩
  · simp only [calculateContentQuality, qualityScoreSpec]
    omega
  · simp only [calculateContentQuality]
    omega

/-- 300 copies of a 7-character word: 2100 characters, 300 words, and no
numeric or currency token at all. -/
def highDensityNoDataContent : String :=
  String.mk (List.replicate 300 "abcdef ".data).flatten

/-- One block of the repeated content consumes one word and two fuel
steps of the word scanner. -/
lemma wordCountAux_block_step (g : Nat) (rest : List Char) :
    wordCountAux (g + 2) ("abcdef ".data ++ rest) = 1 + wordCountAux g rest := rfl

/-- One block of the repeated content consumes seven fuel steps of the
numeric-token scanner without producing a match. -/
lemma numCountAux_block_step (g : Nat) (rest : List Char) :
    countMatchesAux numMatchLen (g + 7) ("abcdef ".data ++ rest) =
      countMatchesAux numMatchLen g rest := rfl

/-- One block of the repeated content consumes seven fuel steps of the
currency-token scanner without producing a match. -/
lemma moneyCountAux_block_step (g : Nat) (rest : List Char) :
    countMatchesAux moneyMatchLen (g + 7) ("abcdef ".data ++ rest) =
      countMatchesAux moneyMatchLen g rest := rfl

lemma wordCountAux_nil (m : Nat) : wordCountAux m [] = 0 := by
  cases m <;> rfl

lemma countMatchesAux_nil (f : List Char → Nat) (m : Nat) :
    countMatchesAux f m [] = 0 := by
  cases m <;> rfl

lemma replicate_block_length (n : Nat) :
    ((List.replicate n "abcdef ".data).flatten).length = 7 * n := by
  induction n with
  | zero => rfl
  | succ k ih =>
    rw [List.replicate_succ, List.flatten_cons, List.length_append, ih]
    have h7 : ("abcdef ".data).length = 7 := rfl
    omega

lemma wordCountAux_replicate_block (n : Nat) : ∀ m : Nat,
    wordCountAux (7 * n + m) (List.replicate n "abcdef ".data).flatten = n := by
  induction n with
  | zero => intro m; exact wordCountAux_nil (7 * 0 + m)
  | succ k ih =>
    intro m
    rw [List.replicate_succ, List.flatten_cons,
      show 7 * (k + 1) + m = (7 * k + (m + 5)) + 2 from by ring,
      wordCountAux_block_step, ih (m + 5)]
    omega

lemma numCountAux_replicate_block (n : Nat) : ∀ m : Nat,
    countMatchesAux numMatchLen (7 * n + m)
      (List.replicate n "abcdef ".data).flatten = 0 := by
  induction n with
  | zero => intro m; exact countMatchesAux_nil numMatchLen (7 * 0 + m)
  | succ k ih =>
    intro m
    rw [List.replicate_succ, List.flatten_cons,
      show 7 * (k + 1) + m = (7 * k + m) + 7 from by ring,
      numCountAux_block_step, ih m]

lemma moneyCountAux_replicate_block (n : Nat) : ∀ m : Nat,
    countMatchesAux moneyMatchLen (7 * n + m)
      (List.replicate n "abcdef ".data).flatten = 0 := by
  induction n with
  | zero => intro m; exact countMatchesAux_nil moneyMatchLen (7 * 0 + m)
  | succ k ih =>
    intro m
    rw [List.replicate_succ, List.flatten_cons,
      show 7 * (k + 1) + m = (7 * k + m) + 7 from by ring,
      moneyCountAux_block_step, ih m]

lemma highDensity_length : highDensityNoDataContent.length = 2100 := by
  show ((List.replicate 300 "abcdef ".data).flatten).length = 2100
  rw [replicate_block_length]

lemma highDensity_wordCount : wordCount highDensityNoDataContent.data = 300 := by
  show wordCountAux ((List.replicate 300 "abcdef ".data).flatten).length
    (List.replicate 300 "abcdef ".data).flatten = 300
  rw [replicate_block_length, show 7 * 300 = 7 * 300 + 0 from rfl,
    wordCountAux_replicate_block]

lemma highDensity_numTokens :
    countMatches numMatchLen highDensityNoDataContent.data = 0 := by
  show countMatchesAux numMatchLen
    ((List.replicate 300 "abcdef ".data).flatten).length
    (List.replicate 300 "abcdef ".data).flatten = 0
  rw [replicate_block_length, show 7 * 300 = 7 * 300 + 0 from rfl,
    numCountAux_replicate_block]

lemma highDensity_moneyTokens :
    countMatches moneyMatchLen highDensityNoDataContent.data = 0 := by
  show countMatchesAux moneyMatchLen
    ((List.replicate 300 "abcdef ".data).flatten).length
    (List.replicate 300 "abcdef ".data).flatten = 0
  rw [replicate_block_length, show 7 * 300 = 7 * 300 + 0 from rfl,
    moneyCountAux_replicate_block]

lemma highDensity_quality :
    calculateContentQuality highDensityNoDataContent "exa" = 60 := by
  simp only [calculateContentQuality, highDensity_length, highDensity_wordCount,
    highDensity_numTokens, highDensity_moneyTokens]
  decide

/-- Claim C9 counterexample: a 2100-character, 300-word text from the
highest-trust provider with no numeric tokens scores exactly
25 + 25 + 0 + 10 = 60, which is below the claimed 75. -/
theorem quality_high_trust_score_can_be_60 :
    2000 ≤ highDensityNoDataContent.length ∧
    300 ≤ wordCount highDensityNoDataContent.data ∧
    calculateContentQuality highDensityNoDataContent "exa" = 60 ∧
    ¬ 75 ≤ calculateContentQuality highDensityNoDataContent "exa" := by
  rw [highDensity_length, highDensity_wordCount, highDensity_quality]
  omega

/-- Claim C9 (amended): a fetched text of at least 2,000 characters and
at least 300 words whose source tag is the highest-trust provider scores
at least 60 (size 25 + density 25 + trust 10); it reaches 75 exactly when
the data-evidence component also contributes at least 15 points, which
need not happen (the claimed unconditional 75 fails, see the
counterexample). -/
theorem quality_high_trust_score_at_least_60 (content source : String)
    (hlen : 2000 ≤ content.length) (hwords : 300 ≤ wordCount content.data)
    (hsource : source = "exa") :
    60 ≤ calculateContentQuality content source ∧
    calculateContentQuality content source ≤ 100 ∧
    (15 ≤ min (countMatches numMatchLen content.data * 2) 20 +
          min (countMatches moneyMatchLen content.data * 3) 15 →
      75 ≤ calculateContentQuality content source) := by
  subst hsource
  have h10 : (if ("exa" : String) = "exa" then (10 : Nat)
      else if ("exa" : String) = "websailor" then 8
      else if ("exa" : String) = "google" ∨ ("exa" : String) = "serper" then 6
      else 0) = 10 := by decide
  simp only [calculateContentQuality, if_pos hlen, if_pos hwords, h10, if_true]
  omega

/-- Witness for the amended C9 theorem at a concrete input. -/
theorem quality_high_trust_score_at_least_60_witness :
    60 ≤ calculateContentQuality highDensityNoDataContent "exa" :=
  (quality_high_trust_score_at_least_60 highDensityNoDataContent "exa"
    (by rw [highDensity_length]; omega)
    (by rw [highDensity_wordCount]) rfl).1

/-- A 200-character extraction result (the boundary the claim is about). -/
def content200 : String := String.mk (List.replicate 200 'a')

/-- A 201-character extraction result. -/
def content201 : String := String.mk (List.replicate 201 'a')

/-- A sample extraction task. -/
def sampleTask : UrlData :=
  { url := "https://example.com/a", title := "t", source := "web", snippet := "" }

/-- A content extractor that always returns the 200-character text. -/
def extractorTo200 : String → Option String := fun _ => some content200

/-- A content extractor that always returns the 201-character text. -/
def extractorTo201 : String → Option String := fun _ => some content201

/-- Claim C6 counterexample: fetched content of exactly 200 characters —
"at least 200" per the claim — yields no document, because the source
keeps a document only when `len(content) > 200` strictly. -/
theorem extraction_drops_exactly_200_chars :
    content200.length = 200 ∧
    extractSingleContent extractorTo200 sampleTask 0 = none := by
  refine ⟨by decide, by decide⟩

/-- Claim C6 (amended): a task yields no document exactly when the
fetched content is missing or has at most 200 characters; whenever the
fetched content is strictly longer than 200 characters (not merely "at
least 200"), a document carrying that content is produced. -/
theorem extraction_yields_doc_iff_content_over_200
    (ext : String → Option String) (u : UrlData) (i : Nat) :
    ((∃ d, extractSingleContent ext u i = some d) ↔
      (∃ c, ext u.url = some c ∧ 200 < c.length)) ∧
    (∀ c, ext u.url = some c → 200 < c.length →
      ∃ d, extractSingleContent ext u i = some d ∧ d.content = c) ∧
    (ext u.url = none → extractSingleContent ext u i = none) := by
  rcases h : ext u.url with _ | c
  · simp [extractSingleContent, h]
  · by_cases hc : 200 < c.length
    · simp [extractSingleContent, h, hc]
    · simp [extractSingleContent, h, hc]
      omega

/-- Witness for the amended C6 theorem at a concrete input. -/
theorem extraction_yields_doc_iff_content_over_200_witness :
    ∃ d, extractSingleContent extractorTo201 sampleTask 0 = some d ∧
      d.content = content201 :=
  (extraction_yields_doc_iff_content_over_200 extractorTo201 sampleTask 0).2.1
    content201 rfl (by decide)

/-- A degenerate snapshot: no data at all (what an all-empty run with an
absent readiness map would look like to the Validator). -/
def emptyMassiveJson : MassiveJson :=
  { session_id := "", query_original := "", garantia_dados_reais := false,
    zero_simulacao := false, total_fontes_web := 0, total_fontes_sociais := 0,
    total_fontes_youtube := 0, total_caracteres_extraidos := 0,
    taxa_sucesso_extracao := 0, qualidade_media_conteudo := 0,
    preparacao_para_analises := [], conteudo_extraido := [] }

/-- Claim C5: the Validator reports sufficient volume iff the snapshot's
total extracted characters reach 50,000, else the problems list carries a
volume message with the actual and required figures; and it approves
quality iff the average quality score reaches 60, else the problems list
carries a quality message. -/
theorem validator_volume_and_quality_thresholds (j : MassiveJson) :
    ((validateMassiveData j).dados_suficientes_para_analise = true ↔
      50000 ≤ j.total_caracteres_extraidos) ∧
    (j.total_caracteres_extraidos < 50000 →
      ("Volume insuficiente: " ++ toString j.total_caracteres_extraidos ++
        " < 50000 caracteres") ∈ (validateMassiveData j).problemas_identificados) ∧
    ((validateMassiveData j).qualidade_aprovada = true ↔
      (60 : ℚ) ≤ j.qualidade_media_conteudo) ∧
    (j.qualidade_media_conteudo < 60 →
      ("Qualidade baixa: " ++ toString j.qualidade_media_conteudo ++ " < 60")
        ∈ (validateMassiveData j).problemas_identificados) := by
  refine ⟨?_, ?_, ?_, ?_⟩
  · simp [validateMassiveData]
  · intro h
    simp [validateMassiveData, if_neg (by omega : ¬ 50000 ≤ j.total_caracteres_extraidos)]
  · simp [validateMassiveData]
  · intro h
    simp [validateMassiveData, if_neg (not_le.mpr h)]

/-- Witness for the C5 theorem at the degenerate snapshot. -/
theorem validator_volume_and_quality_thresholds_witness :
    (validateMassiveData emptyMassiveJson).dados_suficientes_para_analise = false ∧
    ("Volume insuficiente: 0 < 50000 caracteres")
      ∈ (validateMassiveData emptyMassiveJson).problemas_identificados ∧
    ("Qualidade baixa: 0 < 60")
      ∈ (validateMassiveData emptyMassiveJson).problemas_identificados := by
  refine ⟨?_, ?_, ?_⟩
  · cases hb : (validateMassiveData emptyMassiveJson).dados_suficientes_para_analise
    · rfl
    · exact absurd ((validator_volume_and_quality_thresholds emptyMassiveJson).1.mp hb)
        (by decide)
  · exact (validator_volume_and_quality_thresholds emptyMassiveJson).2.1 (by decide)
  · exact (validator_volume_and_quality_thresholds emptyMassiveJson).2.2.2 (by decide)

/-- Claim C7: the Validator is total — for every snapshot it returns a
complete report with all five fields, and on the fully degenerate
snapshot it returns the definite best-effort report (both thresholds
failed, no feasible module, both problems, all three recommendations)
rather than raising. -/
theorem validator_is_total (j : MassiveJson) :
    (∃ suf qual mods probs recs, validateMassiveData j =
      { dados_suficientes_para_analise := suf, qualidade_aprovada := qual,
        modulos_viabilizados := mods, problemas_identificados := probs,
        recomendacoes := recs }) ∧
    validateMassiveData emptyMassiveJson =
      { dados_suficientes_para_analise := false
        qualidade_aprovada := false
        modulos_viabilizados := []
        problemas_identificados :=
          ["Volume insuficiente: 0 < 50000 caracteres", "Qualidade baixa: 0 < 60"]
        recomendacoes :=
          ["Execute nova coleta com mais APIs configuradas",
           "Configure APIs premium para melhor qualidade",
           "Dados insuficientes para alguns módulos - configure mais fontes"] } := by
  exact ⟨⟨_, _, _, _, _, rfl⟩, by decide⟩

/-- An empty extraction result (an all-empty run). -/
def emptyExtraction : ExtractionResult :=
  { total_urls_found := 0, total_content_extracted := 0,
    extraction_success_rate := 0, extracted_content := [], total_chars := 0,
    avg_content_length := 0, sources_by_type := [] }

/-- A concrete consolidated snapshot, exactly as the Consolidator builds
one (its readiness map marks all eight modules ready). -/
def sampleSnapshot : MassiveJson :=
  consolidateMassiveJson initStats emptyExtraction "produto" "sessao-1"

/-- Claim C1 counterexample: on a snapshot produced by the Consolidator,
the feasible-modules list is neither all eight catalogued modules nor
empty, and `provas_visuais_arsenal` is excluded even though the readiness
map marks it ready — the claimed all-or-none behaviour and the claimed
"included iff marked ready" equivalence both fail, because the Validator
looks up `'dados_prontos_para_' + modulo.split('_')[0]`, a key that
exists for only four of the eight module names. -/
theorem module_feasibility_not_all_or_none :
    dictGetBool sampleSnapshot.preparacao_para_analises
      "dados_prontos_para_provas_visuais" = true ∧
    (validateMassiveData sampleSnapshot).modulos_viabilizados ≠ [] ∧
    (validateMassiveData sampleSnapshot).modulos_viabilizados ≠ modulosPossiveis ∧
    "provas_visuais_arsenal" ∉ (validateMassiveData sampleSnapshot).modulos_viabilizados := by
  decide

/-- Claim C1 (amended): for every snapshot produced by the Consolidator
the Validator's feasible list is exactly the four modules whose name part
before the first underscore matches a readiness key —
avatar, drivers, predicoes, posicionamento — never all eight and never
none, regardless of the readiness flags all being true. -/
theorem module_feasibility_exactly_four (stats : CollectionStats)
    (extraction : ExtractionResult) (query sessionId : String) :
    (validateMassiveData
        (consolidateMassiveJson stats extraction query sessionId)).modulos_viabilizados =
      ["avatar_ultra_detalhado", "drivers_mentais_customizados",
       "predicoes_futuro", "posicionamento_estrategico"] := by
  have h : ∀ b : Bool, modulosPossiveis.filter
      (fun m => dictGetBool (preparacaoParaAnalises b)
        ("dados_prontos_para_" ++ firstToken m)) =
      ["avatar_ultra_detalhado", "drivers_mentais_customizados",
       "predicoes_futuro", "posicionamento_estrategico"] := by
    intro b; cases b <;> decide
  simp only [validateMassiveData, consolidateMassiveJson]
  exact h _

/-- Modelled from the spec (section 8): success rate =
extracted-count / found-count × 100, with found-count = 0 yielding 0. -/
def successRateSpec (found extracted : Nat) : ℚ :=
  if found = 0 then 0 else ((extracted : ℚ) / (found : ℚ)) * 100

/-- Claim C8: the reported success rate equals extracted/found × 100 with
the found-count-zero case yielding 0, and the average content length is 0
when nothing was extracted — neither statistic ever divides by zero (in
the source both divisions are guarded by list truthiness checks). -/
theorem extraction_stats_no_division_fault (ext : String → Option String)
    (stats : CollectionStats) (allUrls : List UrlData) :
    ((extractMassiveContent ext stats allUrls).2.extraction_success_rate =
      successRateSpec (extractMassiveContent ext stats allUrls).2.total_urls_found
        (extractMassiveContent ext stats allUrls).2.total_content_extracted) ∧
    (allUrls.length = 0 →
      (extractMassiveContent ext stats allUrls).2.extraction_success_rate = 0) ∧
    ((extractMassiveContent ext stats allUrls).2.total_content_extracted = 0 →
      (extractMassiveContent ext stats allUrls).2.avg_content_length = 0) := by
  refine ⟨?_, ?_, ?_⟩
  · cases allUrls with
    | nil => simp [extractMassiveContent, successRateSpec]
    | cons u us => simp [extractMassiveContent, successRateSpec]
  · intro h
    have hnil : allUrls = [] := List.length_eq_zero.mp h
    subst hnil
    simp [extractMassiveContent]
  · intro h
    have hnil : ((allUrls.take 100).enum.filterMap
        (fun p => extractSingleContent ext p.2 p.1)) = [] := by
      apply List.length_eq_zero.mp
      simpa [extractMassiveContent] using h
    simp [extractMassiveContent, hnil]

/-- A content extractor that never yields anything. -/
def noExtractor : String → Option String := fun _ => none

/-- Witness for the C8 theorem at the empty task list. -/
theorem extraction_stats_no_division_fault_witness :
    (extractMassiveContent noExtractor initStats []).2.extraction_success_rate = 0 ∧
    (extractMassiveContent noExtractor initStats []).2.avg_content_length = 0 :=
  ⟨(extraction_stats_no_division_fault noExtractor initStats []).2.1 rfl,
   (extraction_stats_no_division_fault noExtractor initStats []).2.2 rfl⟩

/-- Claim C10: for every query and every adapter behaviour, the social
search for tiktok and facebook never consults an adapter — it returns the
fabricated single-item result set, flagged `simulated = true` with url
`https://<platform>.com/example`, so each of the two platforms always
contributes exactly one counted social source — while the consolidated
snapshot's metadata unconditionally records `zero_simulacao = true` and
`garantia_dados_reais = true`. -/
theorem tiktok_facebook_always_simulated (mcp : SupadataManager) (q : String)
    (stats : CollectionStats) (extraction : ExtractionResult) (sid : String) :
    searchSocialPlatformMassive mcp "tiktok" q =
      some (simulatePlatformData "tiktok" q) ∧
    searchSocialPlatformMassive mcp "facebook" q =
      some (simulatePlatformData "facebook" q) ∧
    (simulatePlatformData "tiktok" q).results.map
      (fun it => (it.url, it.simulated)) = [("https://tiktok.com/example", true)] ∧
    (simulatePlatformData "facebook" q).results.map
      (fun it => (it.url, it.simulated)) = [("https://facebook.com/example", true)] ∧
    socialContribution (searchSocialPlatformMassive mcp "tiktok" q) = 1 ∧
    socialContribution (searchSocialPlatformMassive mcp "facebook" q) = 1 ∧
    (consolidateMassiveJson stats extraction q sid).zero_simulacao = true ∧
    (consolidateMassiveJson stats extraction q sid).garantia_dados_reais = true := by
  exact ⟨rfl, rfl, rfl, rfl, rfl, rfl, rfl, rfl⟩

/-- A supadata manager whose four real adapters all fail (none
configured); the two simulated platforms are unaffected by it. -/
def errAdapters : SupadataManager :=
  { search_youtube := fun _ _ => Except.error "api indisponivel"
    search_twitter := fun _ _ => Except.error "api indisponivel"
    search_linkedin := fun _ _ => Except.error "api indisponivel"
    search_instagram := fun _ _ => Except.error "api indisponivel" }

/-- A minimal environment: no web provider results, no websailor pages,
no extractable content, persistence succeeding. -/
def baseEnv : PipelineEnv :=
  { exa_available := false, exa_results := [], google_results := [],
    serper_results := [], bing_results := [], mcp := errAdapters,
    websailor_fontes := [], extractor := noExtractor,
    salvar := fun _ _ => Except.ok "analyses_data/massive_data/arquivo.json" }

/-- The minimal environment with a persistence collaborator that always
raises. -/
def failingSaveEnv : PipelineEnv :=
  { baseEnv with salvar := fun _ _ => Except.error "disk cheio" }

/-- Claim C3 counterexample: when the save raises, the pipeline re-raises
the persistence collaborator's original error unchanged — two runs that
differ only in their session id propagate the *identical* error value, so
the raised error does not carry the run id (nor the query); only the
`salvar_erro` side entry records the query. -/
theorem save_failure_error_identical_across_run_ids :
    (collectMassiveData failingSaveEnv initStats "consulta" "SESSAO-A").2.2 =
      Except.error "disk cheio" ∧
    (collectMassiveData failingSaveEnv initStats "consulta" "SESSAO-B").2.2 =
      Except.error "disk cheio" ∧
    ("SESSAO-A" : String) ≠ "SESSAO-B" := by
  exact ⟨rfl, rfl, by decide⟩

/-- Claim C3 (amended): if the persistence collaborator raises, the whole
pipeline call propagates that original error (no partial CollectionResult
is returned), after recording one `salvar_erro` entry whose context
carries the original query — the raised error itself is the
collaborator's exception and does not carry the run id. -/
theorem save_failure_propagates_original_error (env : PipelineEnv)
    (stats0 : CollectionStats) (query sid e : String)
    (h : ∀ j s, env.salvar j s = Except.error e) :
    (collectMassiveData env stats0 query sid).2.2 = Except.error e ∧
    (collectMassiveData env stats0 query sid).2.1 =
      [{ etapa := "coleta_massiva_erro", contexto_query := query }] ∧
    ∀ r, (collectMassiveData env stats0 query sid).2.2 ≠ Except.ok r := by
  simp only [collectMassiveData, h]
  exact ⟨trivial, trivial, fun r => by simp⟩

/-- Witness for the amended C3 theorem at a concrete failing save. -/
theorem save_failure_propagates_original_error_witness :
    (collectMassiveData failingSaveEnv initStats "consulta" "SESSAO-C").2.2 =
      Except.error "disk cheio" ∧
    (collectMassiveData failingSaveEnv initStats "consulta" "SESSAO-C").2.1 =
      [{ etapa := "coleta_massiva_erro", contexto_query := "consulta" }] :=
  ⟨(save_failure_propagates_original_error failingSaveEnv initStats
      "consulta" "SESSAO-C" "disk cheio" (fun _ _ => rfl)).1,
   (save_failure_propagates_original_error failingSaveEnv initStats
      "consulta" "SESSAO-C" "disk cheio" (fun _ _ => rfl)).2.1⟩

/-- An environment for a first run: one google hit whose page extracts to
201 characters. -/
def run1Env : PipelineEnv :=
  { baseEnv with
    google_results := [{ title := "pagina 1", url := "https://site1.example/pagina",
                         snippet := "resumo", source := "google" }],
    extractor := fun u =>
      if u = "https://site1.example/pagina" then some content201 else none }

/-- Claim C4 counterexample: the module-level collector is created once,
and `collect_massive_data` never resets `collection_stats`; after a first
invocation that extracted 201 characters the accumulator is no longer the
zero state, and a second invocation — which finds plenty of URLs but
extracts no document at all — still reports 201 accumulated extracted
characters (and compounds the always-simulated social counts), so its
stats do not start from zero and are carried over from the earlier run. -/
theorem stats_carry_over_between_runs :
    (collectMassiveData run1Env initStats "consulta-1" "S1").1 ≠ initStats ∧
    (collectMassiveData run1Env initStats "consulta-1" "S1").1.total_content_chars = 201 ∧
    runDocs baseEnv "consulta-2" = [] ∧
    (collectMassiveData baseEnv
        ((collectMassiveData run1Env initStats "consulta-1" "S1").1)
        "consulta-2" "S2").1.total_content_chars = 201 ∧
    (collectMassiveData baseEnv
        ((collectMassiveData run1Env initStats "consulta-1" "S1").1)
        "consulta-2" "S2").1.social_sources = 4 := by
  exact ⟨by decide, by decide, by decide, by decide, by decide⟩

/-- Claim C4 (amended): the stats accumulator starts from zero only when
the collector object is constructed (once, at import, for the module's
global instance); an invocation entered with accumulator state `stats0`
overwrites the web counter and per-provider counts but *adds* this run's
youtube/social counts, extracted characters and quality scores on top of
`stats0`, so on the shared global instance every field except the
overwritten web counters is carried over between runs instead of starting
from zero. -/
theorem stats_update_adds_on_top_of_previous_state (env : PipelineEnv)
    (stats0 : CollectionStats) (query sid : String) :
    (collectMassiveData env stats0 query sid).1.web_sources =
      (webResultsOf env).total_web_sources ∧
    (collectMassiveData env stats0 query sid).1.sources_by_provider =
      updateSourcesByProvider env stats0.sources_by_provider ∧
    (collectMassiveData env stats0 query sid).1.youtube_sources =
      stats0.youtube_sources + runYoutubeCount env query ∧
    (collectMassiveData env stats0 query sid).1.social_sources =
      stats0.social_sources + runSocialCount env query ∧
    (collectMassiveData env stats0 query sid).1.total_content_chars =
      stats0.total_content_chars +
        ((runDocs env query).map (fun d => d.content_length)).sum ∧
    (collectMassiveData env stats0 query sid).1.quality_scores =
      stats0.quality_scores ++ (runDocs env query).map (fun d => d.quality_score) := by
  refine ⟨?_, ?_, ?_, ?_, ?_, ?_⟩ <;>
    simp [collectMassiveData, collectMassiveWebData, collectMassiveSocialData,
      extractMassiveContent, runDocs, runUrls]

end MassiveCollector
